import Mathlib

/-!
Verification of the assistant orchestration layer (`assistant.py`) and its
tool functions (`tools.py`): a shallow embedding of the data model and the
operations, followed by theorems about the dispatcher, the run loop, the
completion hook, attachment classification, thread/assistant lookup, the
tool functions and the singleton client cache.
-/

namespace FastapiAssistant

/-! ## Tool dispatcher data model (`assistant.py`, `_process_tool_call` / `_process_tool_calls`)

Argument payloads are JSON objects; the dispatcher never inspects the values,
only merges keys, so values are modelled opaquely as strings. -/

/-- A parsed JSON-object argument payload (insertion-ordered, as a Python dict). -/
abbrev Args := List (String × String)

/-- Python dict assignment `d[k] = v`: replaces the value in place when the key
exists (insertion order kept), otherwise appends the new key at the end. -/
def setKey (l : Args) (k v : String) : Args :=
  if l.any (fun kv => kv.1 == k) then
    l.map (fun kv => if kv.1 == k then (k, v) else kv)
  else
    l ++ [(k, v)]

/-- The `extra_args` merge in `_process_tool_call`: each extra key is assigned
into the parsed arguments, silently overwriting a reserved key.  `None`
(`Option.none`) and the empty dict both leave the arguments unchanged, matching
the falsy `if extra_args:` guard. -/
def merge_extra (args : Args) (extra_args : Option Args) : Args :=
  match extra_args with
  | none => args
  | some ex => ex.foldl (fun a kv => setKey a kv.1 kv.2) args

/-- A Python value appended as a tool output: either a string, or `None`
(which `google_search` can return). -/
inductive PyVal where
  | str (s : String)
  | none
deriving DecidableEq, Repr

/-- Decidable equality for parse outcomes (used to evaluate witnesses). -/
instance : DecidableEq (Except String Args) := fun a b =>
  match a, b with
  | Except.ok x, Except.ok y =>
    if h : x = y then isTrue (by rw [h]) else isFalse (by intro hc; cases hc; exact h rfl)
  | Except.error x, Except.error y =>
    if h : x = y then isTrue (by rw [h]) else isFalse (by intro hc; cases hc; exact h rfl)
  | Except.ok _, Except.error _ => isFalse (by intro hc; cases hc)
  | Except.error _, Except.ok _ => isFalse (by intro hc; cases hc)

/-- The `function` field of a tool call: its name and the outcome of
`json.loads` on its raw argument string.  `Except.error e` models a raw
argument string on which `json.loads` raises, with `e` the stringified
`JSONDecodeError`. -/
structure ToolFunction where
  name : String
  arguments : Except String Args
deriving DecidableEq, Repr

/-- A tool-call request as handed to the dispatcher
(`run.required_action.submit_tool_outputs.tool_calls[i]`). -/
structure ToolCall where
  id : String
  function : ToolFunction
deriving DecidableEq, Repr

/-- The tools module: `getattr(tools, name)` either yields an async callable or
raises (`none`, caught and turned into `to_run = None`).  A callable either
returns a value or raises with a stringified exception. -/
abbrev ToolsModule := String → Option (Args → Except String PyVal)

/-- One entry appended to `tool_outputs`. -/
structure ToolOutput where
  tool_call_id : String
  output : PyVal
deriving DecidableEq, Repr

/-- `_process_tool_call`: parse the arguments, merge `extra_args`, resolve the
function by name, run it, and capture every failure as a string result; the
output is always appended with the request's id and never raises. -/
def process_tool_call (tools : ToolsModule) (extra_args : Option Args)
    (tc : ToolCall) : ToolOutput :=
  let result : PyVal :=
    match tc.function.arguments with
    | Except.error e => PyVal.str e
    | Except.ok args =>
      let merged := merge_extra args extra_args
      match tools tc.function.name with
      | none => PyVal.str ("Function " ++ tc.function.name ++ " not supported")
      | some to_run =>
        match to_run merged with
        | Except.ok v => v
        | Except.error e => PyVal.str e
  { tool_call_id := tc.id, output := result }

/-- `_process_tool_calls`: one coroutine per request, gathered; each coroutine
appends exactly one output to the shared list.  The list argument is the order
in which the coroutines complete (any permutation of the batch); the gather
waits for all of them, so the result is the map of `process_tool_call` over
that completion order. -/
def process_tool_calls (tools : ToolsModule) (extra_args : Option Args)
    (tool_calls : List ToolCall) : List ToolOutput :=
  tool_calls.map (process_tool_call tools extra_args)

/-! ## Thread messages and the full response (`getfullresponse`, `_remove_annotations`) -/

/-- An annotation attached to a text segment (inline citation marker). -/
structure TextAnnotation where
  text : String
deriving DecidableEq, Repr

/-- The `text` value of a message content block: its string value and its
annotations. -/
structure TextValue where
  value : String
  annotations : List TextAnnotation
deriving DecidableEq, Repr

/-- One content block of a message: a text block or any other block type
(image, etc.), which `getfullresponse` skips. -/
inductive MessageContent where
  | text (t : TextValue)
  | other
deriving DecidableEq, Repr

/-- A thread message: its author role and its content blocks. -/
structure Message where
  role : String
  content : List MessageContent
deriving DecidableEq, Repr

/-- `_remove_annotations`: for each annotation, every occurrence of its text is
replaced by the empty string in the value (Python `str.replace`, all
occurrences; annotation texts are nonempty citation markers in practice). -/
def remove_annotations (message_content : TextValue) : TextValue :=
  { message_content with
    value := message_content.annotations.foldl
      (fun v a => v.replace a.text "") message_content.value }

/-- `getfullresponse` (with its default `remove_annotations=True`): walk
`messages.data` — newest first, as the API returns it — in reverse, and
concatenate the annotation-stripped values of the text blocks of every
assistant-authored message. -/
def getfullresponse (data : List Message) : String :=
  data.reverse.foldl
    (fun res m =>
      if m.role == "assistant" then
        m.content.foldl
          (fun acc c =>
            match c with
            | MessageContent.text tv => acc ++ (remove_annotations tv).value
            | MessageContent.other => acc)
          res
      else res)
    ""

/-- Modelled from the spec's description of the completed-run payload: the
concatenation, oldest message first, of all assistant-authored text segments
with inline citation-annotation text stripped.  Stated over an oldest-first
message list, to be compared against `getfullresponse` over the API's
newest-first list. -/
def spec_full_response (oldest_first : List Message) : String :=
  String.join
    ((oldest_first.filter (fun m => m.role == "assistant")).map
      (fun m =>
        String.join (m.content.filterMap
          (fun c =>
            match c with
            | MessageContent.text tv => some (remove_annotations tv).value
            | MessageContent.other => Option.none))))

/-! ## Run status and the orchestration loop (`_process_run`) -/

/-- The run statuses of the remote API. -/
inductive RunStatus where
  | queued
  | in_progress
  | cancelling
  | requires_action
  | completed
  | expired
  | failed
  | cancelled
  | incomplete
deriving DecidableEq, Repr

/-- The loop guard of `_process_run`:
`run.status in ['completed','expired','failed','cancelled','incomplete']`. -/
def isTerminal (s : RunStatus) : Bool :=
  match s with
  | RunStatus.completed => true
  | RunStatus.expired => true
  | RunStatus.failed => true
  | RunStatus.cancelled => true
  | RunStatus.incomplete => true
  | _ => false

/-- A snapshot of the run as seen by `_process_run`: its status, the pending
tool calls when the status is `requires_action`, and the remote error detail.
The first snapshot models `runs.retrieve`; later snapshots model what each
`submit_tool_outputs_and_poll` returns. -/
structure RunSnapshot where
  status : RunStatus
  tool_calls : List ToolCall
  last_error : Option String
deriving DecidableEq, Repr

/-- The payload of the dict returned to the caller: the concatenated text on
success, or `run.last_error` (the remote error detail, possibly `None`) on a
terminal failure. -/
inductive RespPayload where
  | text (s : String)
  | errorDetail (e : Option String)
deriving DecidableEq, Repr

/-- The dict returned by the orchestration entry points:
`{"response": ..., "status_code": ..., "thread_id": ...}` (`thread_id` absent
in the assistant-not-found result). -/
structure ApiResponse where
  response : RespPayload
  status_code : Nat
  thread_id : Option String
deriving DecidableEq, Repr

/-- `_process_run`: loop while the status is not terminal; on
`requires_action`, dispatch the pending tool calls and submit the outputs,
then continue from what the poll returns next.  Returns the caller-visible
result (`none` when the loop never exits: a non-terminal, non-`requires_action`
snapshot spins forever, and an exhausted poll trace models a remote that never
answers) together with the list of submitted output batches, in submission
order. -/
def process_run (tools : ToolsModule) (extra_args : Option Args)
    (thread_id : String) (messages : List Message) :
    RunSnapshot → List RunSnapshot → Option ApiResponse × List (List ToolOutput)
  | run, polls =>
    if isTerminal run.status then
      if run.status = RunStatus.completed then
        (some { response := RespPayload.text (getfullresponse messages),
                status_code := 200, thread_id := some thread_id }, [])
      else
        (some { response := RespPayload.errorDetail run.last_error,
                status_code := 500, thread_id := some thread_id }, [])
    else if run.status = RunStatus.requires_action then
      let outs := process_tool_calls tools extra_args run.tool_calls
      match polls with
      | [] => (none, [outs])
      | next :: rest =>
        let r := process_run tools extra_args thread_id messages next rest
        (r.1, outs :: r.2)
    else
      (none, [])

/-- The tool-call ids answered by one submitted batch. -/
def idsOfBatch (b : List ToolOutput) : List String :=
  b.map (fun o => o.tool_call_id)

/-! ## Attachment classification (`file_upload`, `newthread_and_run` lines 199-209) -/

/-- The `file_upload` model: an uploaded file reference. -/
structure file_upload where
  file_id : Option String
  filename : String
deriving DecidableEq, Repr

/-- Python `str.lower()`, written over the character list (Lean's
`String.toLower` is well-founded recursion over positions and does not reduce
in the kernel). -/
def str_lower (s : String) : String :=
  String.mk (s.data.map Char.toLower)

/-- Python `str.split(sep)` for a one-character separator, written over the
character list (Lean's `String.splitOn` does not reduce in the kernel):
`"".split('.') == ['']`, and every separator occurrence opens a new piece. -/
def split_on_char (sep : Char) : List Char → List (List Char)
  | [] => [[]]
  | c :: rest =>
    let r := split_on_char sep rest
    if c = sep then [] :: r
    else
      match r with
      | [] => [[c]]
      | h :: t => (c :: h) :: t

/-- The `extension` computed field: `filename.split('.')[-1].lower()`. -/
def extension (f : file_upload) : String :=
  str_lower (String.mk ((split_on_char '.' f.filename.data).getLastD []))

/-- The `vision` computed field: the extension is one of the image extensions. -/
def vision (f : file_upload) : Bool :=
  ["jpg", "jpeg", "png", "gif", "bmp", "tiff"].contains (extension f)

/-- The `retrieval` computed field: the extension is one of the retrieval
extensions. -/
def retrieval (f : file_upload) : Bool :=
  ["c", "cs", "cpp", "doc", "docx", "html", "java", "json", "md", "pdf", "php",
   "pptx", "py", "rb", "tex", "txt", "css", "js", "sh", "ts"].contains (extension f)

/-- The three usage modes a file can be given in `newthread_and_run`. -/
inductive FileMode where
  | vision
  | file_search
  | code_interpreter
deriving DecidableEq, Repr

/-- The mode assigned by the branch in `newthread_and_run`: vision files go to
the vision message; the rest become attachments with tool `file_search` when
retrieval-eligible, else `code_interpreter`. -/
def classify (f : file_upload) : FileMode :=
  if vision f then FileMode.vision
  else if retrieval f then FileMode.file_search
  else FileMode.code_interpreter

/-- One attachment dict built for a non-vision file:
`{"file_id": ..., "tools": [{"type": ...}]}`. -/
structure AttachmentSpec where
  file_id : Option String
  tool_type : String
deriving DecidableEq, Repr

/-- The attachment dict for a non-vision file. -/
def toAttachment (f : file_upload) : AttachmentSpec :=
  { file_id := f.file_id,
    tool_type := if retrieval f then "file_search" else "code_interpreter" }

/-- The file loop of `newthread_and_run`: vision files are collected in
`vision_files` (then `continue`), every other file is appended to
`attachment_files` with its tool type. -/
def sort_files : List file_upload → List file_upload × List AttachmentSpec
  | [] => ([], [])
  | f :: rest =>
    let r := sort_files rest
    if vision f then (f :: r.1, r.2)
    else (r.1, toAttachment f :: r.2)

/-! ## Completion hook (`newthread_and_run` with `when_done`, `run_tasks_sequentially`) -/

/-- The three background tasks chained when `when_done` is supplied:
poll the run, process it to a terminal state, then invoke the hook with the
thread id. -/
inductive BgTask where
  | poll (run_id thread_id : String)
  | processRunTask (run_id thread_id : String)
  | whenDoneHook (thread_id : String)
deriving DecidableEq, Repr

/-- `run_tasks_sequentially` awaits each task in order, so its execution trace
is exactly the task list in its given order; the helper is modelled by the
trace it produces. -/
def run_tasks_sequentially (tasks : List BgTask) : List BgTask := tasks

/-- The `when_done` branch of `newthread_and_run`: the three-task background
chain is handed to `asyncio.create_task` (fire-and-forget; its outcome,
including a hook failure, is never read) and the queued response is returned
immediately.  The hook's eventual outcome is a parameter to make the
independence of the response from it explicit. -/
def newthread_and_run_queued (run_id thread_id : String)
    (_hook_outcome : Except String Unit) : ApiResponse × List BgTask :=
  ({ response := RespPayload.text ("thread " ++ thread_id ++ " queued for execution"),
     status_code := 200, thread_id := some thread_id },
   run_tasks_sequentially
     [BgTask.poll run_id thread_id,
      BgTask.processRunTask run_id thread_id,
      BgTask.whenDoneHook thread_id])

/-- Whether a background task is the completion-hook invocation. -/
def isWhenDone : BgTask → Bool
  | BgTask.whenDoneHook _ => true
  | _ => false

/-! ## Assistant lookup and thread retrieval (`newthread_and_run` lines 194-198, `get_thread`) -/

/-- A thread object: its id and its metadata map. -/
structure ThreadObj where
  id : String
  metadata : List (String × String)
deriving DecidableEq, Repr

/-- The metadata update in `get_thread`: when an assistant name is present
(and truthy), store it under `"assistant_name"`. -/
def md_with_assistant_name (md : List (String × String))
    (assistant_name : Option String) : List (String × String) :=
  match assistant_name with
  | some an => if an = "" then md else setKey md "assistant_name" an
  | none => md

/-- `get_thread`: normalise `None` metadata to `{}`; when a thread id is given,
try to retrieve it (`retrieve tid = none` models the retrieve call raising,
which is caught and logged); when no thread was obtained, create a new one
with the assistant name stored in the metadata. -/
def get_thread (retrieve : String → Option ThreadObj)
    (create : List (String × String) → ThreadObj)
    (thread_id : Option String) (assistant_name : Option String)
    (metadata : Option (List (String × String))) : ThreadObj :=
  let md := metadata.getD []
  let thread : Option ThreadObj :=
    match thread_id with
    | some tid => retrieve tid
    | none => Option.none
  match thread with
  | some t => t
  | Option.none => create (md_with_assistant_name md assistant_name)

/-- The assistant resolution at the top of `newthread_and_run`: when no
(truthy) assistant id is supplied, look the name up; a failed lookup returns
the 404 dict `{"response": "Assistant '<name>' not found", "status_code": 404}`
to the caller. -/
def resolve_assistant (lookup_by_name : String → Option String)
    (assistant_id : Option String) (assistant_name : String) :
    Except ApiResponse String :=
  if (assistant_id.getD "") = "" then
    match lookup_by_name assistant_name with
    | some aid => Except.ok aid
    | Option.none =>
      Except.error
        { response := RespPayload.text
            ("Assistant \x27" ++ assistant_name ++ "\x27 not found"),
          status_code := 404, thread_id := Option.none }
  else Except.ok (assistant_id.getD "")

/-! ## Tool functions (`tools.py`)

Each tool receives its argument payload after pydantic validation:
`Except.error e` models a payload on which the parameter model raises a
validation error (stringified as `e`).  Remote effects (HTTP fetch, Google
API, the nested assistant run) are abstract function parameters. -/

/-- `WebScrapeParameters` after validation (`url` is the normalised string of
the validated `HttpUrl`). -/
structure WebScrapeParameters where
  url : String
  ignore_links : Bool
  max_length : Option Int
deriving DecidableEq, Repr

/-- Python slice `s[0:n]`: a negative `n` counts from the end, clamped at 0. -/
def pySliceTo (s : String) (n : Int) : String :=
  if 0 ≤ n then s.take n.toNat
  else s.take ((s.length : Int) + n).toNat

/-- `webscrape`: a validation failure returns the fixed invalid-url string; a
fetch failure returns the error string with the url; otherwise the fetched
HTML is converted to text (`html_to_text`, modelled by the abstract `h2t`
taking the HTML and `ignore_links`) and truncated when `max_length` is truthy
(neither `None` nor 0). -/
def webscrape (fetch : String → Except String String)
    (h2t : String → Bool → String)
    (plain_json : Except String WebScrapeParameters) : Except String PyVal :=
  match plain_json with
  | Except.error _ => Except.ok (PyVal.str "The provided url is not valid")
  | Except.ok info =>
    match fetch info.url with
    | Except.error _ =>
      Except.ok (PyVal.str ("Error fetching the url " ++ info.url))
    | Except.ok htmlText =>
      let out := h2t htmlText info.ignore_links
      Except.ok (PyVal.str
        (match info.max_length with
         | some n => if n ≠ 0 then pySliceTo out n else out
         | Option.none => out))

/-- `google_search_parameters` after validation. -/
structure google_search_parameters where
  query : String
  results : Int
  exactTerms : Option String
  excludeTerms : Option String
  cx : Option String
deriving DecidableEq, Repr

/-- The `if not info.cx:` defaulting: a falsy `cx` (`None` or the empty
string) is replaced by the `GOOGLE_SEARCH_CX_ID` environment value. -/
def apply_default_cx (env_cx : Option String)
    (info : google_search_parameters) : google_search_parameters :=
  if info.cx.getD "" = "" then { info with cx := env_cx } else info

/-- `google_search`: a validation failure propagates out of the function (the
model construction is not inside a try block); the remote call
(`service.cse().list(...).execute()`, modelled by `remote`, which yields the
stringified truthy `items` when present) returns `None` — not a string — when
it raises, the stringified items when present, and the fixed no-results string
otherwise. -/
def google_search (env_cx : Option String)
    (remote : google_search_parameters → Except String (Option String))
    (plain_json : Except String google_search_parameters) :
    Except String PyVal :=
  match plain_json with
  | Except.error e => Except.error e
  | Except.ok info0 =>
    let info := apply_default_cx env_cx info0
    match remote info with
    | Except.error _ => Except.ok PyVal.none
    | Except.ok (some items) => Except.ok (PyVal.str items)
    | Except.ok Option.none => Except.ok (PyVal.str "No results found")

/-- `company_research_parameters` after validation. -/
structure company_research_parameters where
  company_name : String
  website : String
deriving DecidableEq, Repr

/-- Python `str(...)` on the `response` field of the orchestrator result. -/
def pyStrPayload : RespPayload → String
  | RespPayload.text s => s
  | RespPayload.errorDetail (some e) => e
  | RespPayload.errorDetail Option.none => "None"

/-- `company_research`: a validation failure propagates out of the function;
otherwise it runs the nested "Company Research Assistant" thread (modelled by
`run_assistant` over the composed content) and returns
`str(result['response'])`. -/
def company_research (run_assistant : String → ApiResponse)
    (plain_json : Except String company_research_parameters) :
    Except String PyVal :=
  match plain_json with
  | Except.error e => Except.error e
  | Except.ok info =>
    Except.ok (PyVal.str (pyStrPayload
      (run_assistant
        ("Research this company :" ++ info.company_name ++ " " ++ info.website)).response))

/-- Whether a tool invocation returned (without raising) a string payload. -/
def isStrResult : Except String PyVal → Bool
  | Except.ok (PyVal.str _) => true
  | _ => false

/-! ## Singleton metaclass (`Singleton`, `Assistant_call`) -/

/-- An `Assistant_call` instance: `__init__` stores a fresh OpenAI client,
identified abstractly. -/
structure AssistantCallObj where
  client : Nat
deriving DecidableEq, Repr

/-- `Singleton.__call__`: the metaclass keeps a class-keyed cache
`_instances`; when the class is absent the constructor (`make`) runs and the
instance is cached, otherwise the cached instance is returned and the
constructor never runs. -/
def singleton_call (instances : List (String × AssistantCallObj)) (cls : String)
    (make : Unit → AssistantCallObj) :
    AssistantCallObj × List (String × AssistantCallObj) :=
  match instances.lookup cls with
  | some inst => (inst, instances)
  | Option.none =>
    let inst := make ()
    (inst, (cls, inst) :: instances)

/-! ## Theorems -/

/-- The answered id of a dispatched call is the request's id. -/
theorem process_tool_calls_ids (tools : ToolsModule) (extra_args : Option Args)
    (l : List ToolCall) :
    (process_tool_calls tools extra_args l).map (fun o => o.tool_call_id) =
      l.map (fun tc => tc.id) := by
  unfold process_tool_calls
  rw [List.map_map]
  rfl

/-- C1: for every batch of N tool-call requests, under any completion order
(any permutation `schedule` of the batch), the dispatcher returns exactly N
outputs whose `tool_call_id`s are a permutation of the input ids — each input
id appears with its input multiplicity, hence exactly once when the input ids
are distinct. -/
theorem dispatcher_output_bijection (tools : ToolsModule) (extra_args : Option Args)
    (tool_calls schedule : List ToolCall) (h : schedule.Perm tool_calls) :
    (process_tool_calls tools extra_args schedule).length = tool_calls.length ∧
    ((process_tool_calls tools extra_args schedule).map (fun o => o.tool_call_id)).Perm
      (tool_calls.map (fun tc => tc.id)) ∧
    ((tool_calls.map (fun tc => tc.id)).Nodup →
      ((process_tool_calls tools extra_args schedule).map (fun o => o.tool_call_id)).Nodup) := by
  have hperm : ((process_tool_calls tools extra_args schedule).map
      (fun o => o.tool_call_id)).Perm (tool_calls.map (fun tc => tc.id)) := by
    rw [process_tool_calls_ids]
    exact h.map _
  refine ⟨?_, hperm, fun hnd => hperm.symm.nodup hnd⟩
  unfold process_tool_calls
  rw [List.length_map]
  exact h.length_eq

/-- C1 witness: a concrete two-request batch dispatched in reversed completion
order. -/
theorem dispatcher_output_bijection_witness :
    (([({ id := "call_b", function := { name := "missing_fn", arguments := Except.ok [] } } : ToolCall),
       { id := "call_a", function := { name := "webscrape", arguments := Except.ok [("url", "https://x")] } }]).Perm
      [({ id := "call_a", function := { name := "webscrape", arguments := Except.ok [("url", "https://x")] } } : ToolCall),
       { id := "call_b", function := { name := "missing_fn", arguments := Except.ok [] } }]) ∧
    ((process_tool_calls (fun _ => Option.none) Option.none
        [({ id := "call_b", function := { name := "missing_fn", arguments := Except.ok [] } } : ToolCall),
         { id := "call_a", function := { name := "webscrape", arguments := Except.ok [("url", "https://x")] } }]).length =
      ([({ id := "call_a", function := { name := "webscrape", arguments := Except.ok [("url", "https://x")] } } : ToolCall),
        { id := "call_b", function := { name := "missing_fn", arguments := Except.ok [] } }]).length ∧
     ((process_tool_calls (fun _ => Option.none) Option.none
        [({ id := "call_b", function := { name := "missing_fn", arguments := Except.ok [] } } : ToolCall),
         { id := "call_a", function := { name := "webscrape", arguments := Except.ok [("url", "https://x")] } }]).map
          (fun o => o.tool_call_id)).Perm
       (([({ id := "call_a", function := { name := "webscrape", arguments := Except.ok [("url", "https://x")] } } : ToolCall),
          { id := "call_b", function := { name := "missing_fn", arguments := Except.ok [] } }]).map
          (fun tc => tc.id)) ∧
     ((([({ id := "call_a", function := { name := "webscrape", arguments := Except.ok [("url", "https://x")] } } : ToolCall),
         { id := "call_b", function := { name := "missing_fn", arguments := Except.ok [] } }]).map
          (fun tc => tc.id)).Nodup →
       ((process_tool_calls (fun _ => Option.none) Option.none
          [({ id := "call_b", function := { name := "missing_fn", arguments := Except.ok [] } } : ToolCall),
           { id := "call_a", function := { name := "webscrape", arguments := Except.ok [("url", "https://x")] } }]).map
          (fun o => o.tool_call_id)).Nodup)) :=
  ⟨by decide, dispatcher_output_bijection _ _ _ _ (by decide)⟩

/-- C3 counterexample: a request whose function name does not resolve but
whose raw argument string is malformed JSON.  `json.loads` runs before the
name resolution, so the recorded output is the stringified parse error, not
the literal not-supported string the claim requires. -/
theorem unknown_function_claim_counterexample :
    ((fun _ => Option.none : ToolsModule) "ghost_fn" = Option.none) ∧
    (process_tool_call (fun _ => Option.none) Option.none
        { id := "call_1",
          function := { name := "ghost_fn",
                        arguments :=
                          Except.error "Expecting value: line 1 column 1 (char 0)" } }).output =
      PyVal.str "Expecting value: line 1 column 1 (char 0)" ∧
    (process_tool_call (fun _ => Option.none) Option.none
        { id := "call_1",
          function := { name := "ghost_fn",
                        arguments :=
                          Except.error "Expecting value: line 1 column 1 (char 0)" } }).output ≠
      PyVal.str ("Function " ++ "ghost_fn" ++ " not supported") :=
  ⟨rfl, rfl, by decide⟩

/-- C3 (amended): for every request whose argument string parses as JSON and
whose function name does not resolve in the tools module, the output is
exactly the string `"Function <name> not supported"`, and every other request
of the batch keeps its own independently computed result. -/
theorem unknown_function_literal_output (tools : ToolsModule) (extra_args : Option Args)
    (tc : ToolCall) (args : Args) (pre post : List ToolCall)
    (hparse : tc.function.arguments = Except.ok args)
    (hmiss : tools tc.function.name = Option.none) :
    process_tool_call tools extra_args tc =
      { tool_call_id := tc.id,
        output := PyVal.str ("Function " ++ tc.function.name ++ " not supported") } ∧
    process_tool_calls tools extra_args (pre ++ tc :: post) =
      process_tool_calls tools extra_args pre ++
        { tool_call_id := tc.id,
          output := PyVal.str ("Function " ++ tc.function.name ++ " not supported") } ::
        process_tool_calls tools extra_args post := by
  have h1 : process_tool_call tools extra_args tc =
      { tool_call_id := tc.id,
        output := PyVal.str ("Function " ++ tc.function.name ++ " not supported") } := by
    simp [process_tool_call, hparse, hmiss]
  refine ⟨h1, ?_⟩
  unfold process_tool_calls
  rw [List.map_append, List.map_cons, h1]

/-- C3 witness: a concrete batch with a well-parsed but unresolvable request
between two neighbours. -/
theorem unknown_function_literal_output_witness :
    (({ id := "call_2", function := { name := "ghost_fn", arguments := Except.ok [("x", "1")] } } : ToolCall).function.arguments =
      Except.ok [("x", "1")] ∧
     (fun _ => Option.none : ToolsModule)
        ({ id := "call_2", function := { name := "ghost_fn", arguments := Except.ok [("x", "1")] } } : ToolCall).function.name =
      Option.none) ∧
    (process_tool_call (fun _ => Option.none) Option.none
        { id := "call_2", function := { name := "ghost_fn", arguments := Except.ok [("x", "1")] } } =
      { tool_call_id := "call_2",
        output := PyVal.str ("Function " ++ ({ id := "call_2", function := { name := "ghost_fn", arguments := Except.ok [("x", "1")] } } : ToolCall).function.name ++ " not supported") } ∧
     process_tool_calls (fun _ => Option.none) Option.none
        ([{ id := "call_1", function := { name := "a_fn", arguments := Except.ok [] } }] ++
          { id := "call_2", function := { name := "ghost_fn", arguments := Except.ok [("x", "1")] } } ::
          [{ id := "call_3", function := { name := "b_fn", arguments := Except.ok [] } }]) =
      process_tool_calls (fun _ => Option.none) Option.none
          [{ id := "call_1", function := { name := "a_fn", arguments := Except.ok [] } }] ++
        { tool_call_id := "call_2",
          output := PyVal.str ("Function " ++ ({ id := "call_2", function := { name := "ghost_fn", arguments := Except.ok [("x", "1")] } } : ToolCall).function.name ++ " not supported") } ::
        process_tool_calls (fun _ => Option.none) Option.none
          [{ id := "call_3", function := { name := "b_fn", arguments := Except.ok [] } }]) :=
  ⟨⟨rfl, rfl⟩, unknown_function_literal_output _ _ _ _ _ _ rfl rfl⟩

/-- C4: for every request whose processing raises — a malformed argument
string, or a resolved function that raises — the dispatcher records the
stringified exception as that call's output; nothing propagates, and every
sibling of the batch keeps its own independently computed result. -/
theorem tool_exception_captured_as_output (tools : ToolsModule) (extra_args : Option Args)
    (tc : ToolCall) (e : String) (pre post : List ToolCall)
    (h : tc.function.arguments = Except.error e ∨
         ∃ args to_run, tc.function.arguments = Except.ok args ∧
           tools tc.function.name = some to_run ∧
           to_run (merge_extra args extra_args) = Except.error e) :
    process_tool_call tools extra_args tc =
      { tool_call_id := tc.id, output := PyVal.str e } ∧
    process_tool_calls tools extra_args (pre ++ tc :: post) =
      process_tool_calls tools extra_args pre ++
        { tool_call_id := tc.id, output := PyVal.str e } ::
        process_tool_calls tools extra_args post := by
  have h1 : process_tool_call tools extra_args tc =
      { tool_call_id := tc.id, output := PyVal.str e } := by
    rcases h with hperr | ⟨args, to_run, hok, hres, herr⟩
    · simp [process_tool_call, hperr]
    · simp [process_tool_call, hok, hres, herr]
  refine ⟨h1, ?_⟩
  unfold process_tool_calls
  rw [List.map_append, List.map_cons, h1]

/-- C4 witness: a concrete batch where the middle request resolves to a
function that raises `ValueError`. -/
theorem tool_exception_captured_as_output_witness :
    (({ id := "call_2", function := { name := "boom", arguments := Except.ok [("x", "1")] } } : ToolCall).function.arguments =
        Except.error "ValueError: bad payload" ∨
     ∃ args to_run,
       ({ id := "call_2", function := { name := "boom", arguments := Except.ok [("x", "1")] } } : ToolCall).function.arguments =
         Except.ok args ∧
       (fun _ => some (fun _ => Except.error "ValueError: bad payload") : ToolsModule)
         ({ id := "call_2", function := { name := "boom", arguments := Except.ok [("x", "1")] } } : ToolCall).function.name =
         some to_run ∧
       to_run (merge_extra args Option.none) = Except.error "ValueError: bad payload") ∧
    (process_tool_call (fun _ => some (fun _ => Except.error "ValueError: bad payload")) Option.none
        { id := "call_2", function := { name := "boom", arguments := Except.ok [("x", "1")] } } =
      { tool_call_id := "call_2", output := PyVal.str "ValueError: bad payload" } ∧
     process_tool_calls (fun _ => some (fun _ => Except.error "ValueError: bad payload")) Option.none
        ([{ id := "call_1", function := { name := "a_fn", arguments := Except.ok [] } }] ++
          { id := "call_2", function := { name := "boom", arguments := Except.ok [("x", "1")] } } ::
          [{ id := "call_3", function := { name := "b_fn", arguments := Except.ok [] } }]) =
      process_tool_calls (fun _ => some (fun _ => Except.error "ValueError: bad payload")) Option.none
          [{ id := "call_1", function := { name := "a_fn", arguments := Except.ok [] } }] ++
        { tool_call_id := "call_2", output := PyVal.str "ValueError: bad payload" } ::
        process_tool_calls (fun _ => some (fun _ => Except.error "ValueError: bad payload")) Option.none
          [{ id := "call_3", function := { name := "b_fn", arguments := Except.ok [] } }]) :=
  ⟨Or.inr ⟨[("x", "1")], fun _ => Except.error "ValueError: bad payload", rfl, rfl, rfl⟩,
   tool_exception_captured_as_output _ _ _ _ _ _
     (Or.inr ⟨[("x", "1")], fun _ => Except.error "ValueError: bad payload", rfl, rfl, rfl⟩)⟩

/-- Unfolding of `_process_run` at a terminal snapshot: the loop body never
runs and the terminal result is returned. -/
theorem process_run_terminal_eq (tools : ToolsModule) (extra_args : Option Args)
    (thread_id : String) (messages : List Message) (run : RunSnapshot)
    (polls : List RunSnapshot) (h : isTerminal run.status = true) :
    process_run tools extra_args thread_id messages run polls =
      if run.status = RunStatus.completed then
        (some { response := RespPayload.text (getfullresponse messages),
                status_code := 200, thread_id := some thread_id }, [])
      else
        (some { response := RespPayload.errorDetail run.last_error,
                status_code := 500, thread_id := some thread_id }, []) := by
  rw [process_run.eq_def]
  simp [h]

/-- Unfolding of `_process_run` at a `requires_action` snapshot with the poll
trace exhausted: the round's outputs are submitted and the loop never
resumes. -/
theorem process_run_ra_nil_eq (tools : ToolsModule) (extra_args : Option Args)
    (thread_id : String) (messages : List Message) (run : RunSnapshot)
    (h : run.status = RunStatus.requires_action) :
    process_run tools extra_args thread_id messages run [] =
      (none, [process_tool_calls tools extra_args run.tool_calls]) := by
  rw [process_run.eq_def]
  simp [h, isTerminal]

/-- Unfolding of `_process_run` at a `requires_action` snapshot: the round's
outputs are submitted and the loop continues from the next polled snapshot. -/
theorem process_run_ra_cons_eq (tools : ToolsModule) (extra_args : Option Args)
    (thread_id : String) (messages : List Message) (run next : RunSnapshot)
    (rest : List RunSnapshot) (h : run.status = RunStatus.requires_action) :
    process_run tools extra_args thread_id messages run (next :: rest) =
      ((process_run tools extra_args thread_id messages next rest).1,
        process_tool_calls tools extra_args run.tool_calls ::
          (process_run tools extra_args thread_id messages next rest).2) := by
  rw [process_run.eq_def]
  simp [h, isTerminal]

/-- Behaviour of the run loop under the SDK poll contract (every snapshot the
loop sees is either terminal or `requires_action`): the submitted batches are
exactly one per non-terminal round, in order, and as soon as some snapshot of
the trace is terminal the loop exits with a result. -/
theorem process_run_loop_spec (tools : ToolsModule) (extra_args : Option Args)
    (thread_id : String) (messages : List Message) :
    ∀ (polls : List RunSnapshot) (run : RunSnapshot),
      (∀ p ∈ run :: polls, isTerminal p.status = true ∨ p.status = RunStatus.requires_action) →
      ((process_run tools extra_args thread_id messages run polls).2 =
        ((run :: polls).takeWhile (fun s => !isTerminal s.status)).map
          (fun s => process_tool_calls tools extra_args s.tool_calls)) ∧
      ((∃ p ∈ run :: polls, isTerminal p.status = true) →
        (process_run tools extra_args thread_id messages run polls).1.isSome = true) := by
  intro polls
  induction polls with
  | nil =>
    intro run hc
    rcases hc run (List.mem_cons_self run []) with hterm | hra
    · rw [process_run_terminal_eq tools extra_args thread_id messages run [] hterm]
      have hnn : (!isTerminal run.status) = false := by rw [hterm]; rfl
      constructor
      · rw [List.takeWhile_cons, hnn]
        split <;> rfl
      · intro _
        split <;> rfl
    · have hnt : isTerminal run.status = false := by rw [hra]; rfl
      rw [process_run_ra_nil_eq tools extra_args thread_id messages run hra]
      constructor
      · rw [List.takeWhile_cons, hnt]
        rfl
      · intro hex
        exfalso
        rcases hex with ⟨p, hp, hpt⟩
        rcases List.mem_singleton.mp hp with rfl
        rw [hnt] at hpt
        cases hpt
  | cons next rest ih =>
    intro run hc
    rcases hc run (List.mem_cons_self run _) with hterm | hra
    · rw [process_run_terminal_eq tools extra_args thread_id messages run (next :: rest) hterm]
      have hnn : (!isTerminal run.status) = false := by rw [hterm]; rfl
      constructor
      · rw [List.takeWhile_cons, hnn]
        split <;> rfl
      · intro _
        split <;> rfl
    · have hnt : isTerminal run.status = false := by rw [hra]; rfl
      have hc' : ∀ p ∈ next :: rest,
          isTerminal p.status = true ∨ p.status = RunStatus.requires_action := by
        intro p hp
        exact hc p (List.mem_cons_of_mem run hp)
      rcases ih next hc' with ⟨ihsub, ihterm⟩
      rw [process_run_ra_cons_eq tools extra_args thread_id messages run next rest hra]
      constructor
      · rw [List.takeWhile_cons]
        have hnn : (!isTerminal run.status) = true := by rw [hnt]; rfl
        rw [hnn]
        simp only [if_true, List.map_cons]
        rw [← ihsub]
      · intro hex
        have hex' : ∃ p ∈ next :: rest, isTerminal p.status = true := by
          rcases hex with ⟨p, hp, hpt⟩
          rcases List.mem_cons.mp hp with rfl | hmem
          · rw [hnt] at hpt; cases hpt
          · exact ⟨p, hmem, hpt⟩
        exact ihterm hex'

/-- C2: under the SDK poll contract (each snapshot the loop observes is
terminal or `requires_action`) and with some snapshot of the trace terminal,
the tool-call loop of `_process_run` terminates with a result; each iteration
either exits on the terminal status or submits exactly the outputs of that
round's pending requests; and when the remote never re-reports an answered id
(the rounds' ids are jointly duplicate-free), no id is answered twice across
the submitted batches. -/
theorem run_loop_terminates_no_reanswer (tools : ToolsModule) (extra_args : Option Args)
    (thread_id : String) (messages : List Message)
    (run : RunSnapshot) (polls : List RunSnapshot)
    (hcontract : ∀ p ∈ run :: polls,
      isTerminal p.status = true ∨ p.status = RunStatus.requires_action)
    (hterminal : ∃ p ∈ run :: polls, isTerminal p.status = true) :
    (process_run tools extra_args thread_id messages run polls).1.isSome = true ∧
    (process_run tools extra_args thread_id messages run polls).2 =
      ((run :: polls).takeWhile (fun s => !isTerminal s.status)).map
        (fun s => process_tool_calls tools extra_args s.tool_calls) ∧
    ((((run :: polls).takeWhile (fun s => !isTerminal s.status)).map
        (fun s => s.tool_calls.map (fun c => c.id))).flatten.Nodup →
      (((process_run tools extra_args thread_id messages run polls).2).map idsOfBatch).flatten.Nodup) := by
  rcases process_run_loop_spec tools extra_args thread_id messages polls run hcontract with
    ⟨hsub, hterm⟩
  refine ⟨hterm hterminal, hsub, fun hnd => ?_⟩
  rw [hsub, List.map_map]
  have hfun : (idsOfBatch ∘ fun s => process_tool_calls tools extra_args s.tool_calls) =
      fun s : RunSnapshot => s.tool_calls.map (fun c => c.id) := by
    funext s
    exact process_tool_calls_ids tools extra_args s.tool_calls
  rw [hfun]
  exact hnd

/-- C2 witness: one `requires_action` round with a single pending call,
followed by a completed snapshot. -/
theorem run_loop_terminates_no_reanswer_witness :
    ((∀ p ∈ ({ status := RunStatus.requires_action,
               tool_calls := [{ id := "call_1",
                                function := { name := "webscrape", arguments := Except.ok [] } }],
               last_error := Option.none } : RunSnapshot) ::
            [({ status := RunStatus.completed, tool_calls := [], last_error := Option.none } : RunSnapshot)],
        isTerminal p.status = true ∨ p.status = RunStatus.requires_action) ∧
     (∃ p ∈ ({ status := RunStatus.requires_action,
               tool_calls := [{ id := "call_1",
                                function := { name := "webscrape", arguments := Except.ok [] } }],
               last_error := Option.none } : RunSnapshot) ::
            [({ status := RunStatus.completed, tool_calls := [], last_error := Option.none } : RunSnapshot)],
        isTerminal p.status = true)) ∧
    ((process_run (fun _ => Option.none) Option.none "thread_1" []
        { status := RunStatus.requires_action,
          tool_calls := [{ id := "call_1",
                           function := { name := "webscrape", arguments := Except.ok [] } }],
          last_error := Option.none }
        [{ status := RunStatus.completed, tool_calls := [], last_error := Option.none }]).1.isSome = true ∧
     (process_run (fun _ => Option.none) Option.none "thread_1" []
        { status := RunStatus.requires_action,
          tool_calls := [{ id := "call_1",
                           function := { name := "webscrape", arguments := Except.ok [] } }],
          last_error := Option.none }
        [{ status := RunStatus.completed, tool_calls := [], last_error := Option.none }]).2 =
      ((({ status := RunStatus.requires_action,
           tool_calls := [{ id := "call_1",
                            function := { name := "webscrape", arguments := Except.ok [] } }],
           last_error := Option.none } : RunSnapshot) ::
         [({ status := RunStatus.completed, tool_calls := [], last_error := Option.none } : RunSnapshot)]).takeWhile
          (fun s => !isTerminal s.status)).map
        (fun s => process_tool_calls (fun _ => Option.none) Option.none s.tool_calls) ∧
     ((((( { status := RunStatus.requires_action,
             tool_calls := [{ id := "call_1",
                              function := { name := "webscrape", arguments := Except.ok [] } }],
             last_error := Option.none } : RunSnapshot) ::
          [({ status := RunStatus.completed, tool_calls := [], last_error := Option.none } : RunSnapshot)]).takeWhile
           (fun s => !isTerminal s.status)).map
          (fun s => s.tool_calls.map (fun c => c.id))).flatten.Nodup →
       (((process_run (fun _ => Option.none) Option.none "thread_1" []
           { status := RunStatus.requires_action,
             tool_calls := [{ id := "call_1",
                              function := { name := "webscrape", arguments := Except.ok [] } }],
             last_error := Option.none }
           [{ status := RunStatus.completed, tool_calls := [], last_error := Option.none }]).2).map idsOfBatch).flatten.Nodup)) :=
  ⟨⟨by decide, by decide⟩,
   run_loop_terminates_no_reanswer _ _ _ _ _ _ (by decide) (by decide)⟩

/-- C5: with a `when_done` hook supplied, `newthread_and_run` returns the
queued response (status 200, the thread id, the queued text) immediately — the
background chain is detached, so the response is the same whatever the hook's
outcome — and the background trace invokes the hook exactly once, with the
thread id, after the run has been processed to its terminal state. -/
theorem queued_response_hook_exactly_once (run_id thread_id : String)
    (outcome other_outcome : Except String Unit) :
    (newthread_and_run_queued run_id thread_id outcome).1.status_code = 200 ∧
    (newthread_and_run_queued run_id thread_id outcome).1.thread_id = some thread_id ∧
    (newthread_and_run_queued run_id thread_id outcome).1.response =
      RespPayload.text ("thread " ++ thread_id ++ " queued for execution") ∧
    ((newthread_and_run_queued run_id thread_id outcome).2.filter isWhenDone) =
      [BgTask.whenDoneHook thread_id] ∧
    (newthread_and_run_queued run_id thread_id outcome).2 =
      [BgTask.poll run_id thread_id, BgTask.processRunTask run_id thread_id,
       BgTask.whenDoneHook thread_id] ∧
    (newthread_and_run_queued run_id thread_id outcome).1 =
      (newthread_and_run_queued run_id thread_id other_outcome).1 :=
  ⟨rfl, rfl, rfl, rfl, rfl, rfl⟩

/-- Appending strings with `foldl` from any accumulator is the accumulator
followed by the join. -/
theorem foldl_append_eq_join (l : List String) (acc : String) :
    l.foldl (fun r s => r ++ s) acc = acc ++ String.join l := by
  induction l generalizing acc with
  | nil => simp [String.join, String.append_empty]
  | cons a t ih =>
    have hj : String.join (a :: t) = a ++ String.join t := by
      show (a :: t).foldl (fun r s => r ++ s) "" = a ++ String.join t
      rw [List.foldl_cons, ih, String.empty_append]
    rw [List.foldl_cons, ih, hj, String.append_assoc]

/-- The inner content loop of `getfullresponse` appends, in order, the
stripped values of the text blocks. -/
theorem content_foldl_eq_join (cs : List MessageContent) (acc : String) :
    cs.foldl
      (fun a c =>
        match c with
        | MessageContent.text tv => a ++ (remove_annotations tv).value
        | MessageContent.other => a)
      acc =
    acc ++ String.join (cs.filterMap
      (fun c =>
        match c with
        | MessageContent.text tv => some (remove_annotations tv).value
        | MessageContent.other => Option.none)) := by
  induction cs generalizing acc with
  | nil => simp [String.join, String.append_empty]
  | cons c t ih =>
    cases c with
    | text tv =>
      rw [List.foldl_cons]
      show t.foldl _ (acc ++ (remove_annotations tv).value) = _
      rw [ih]
      have hj : String.join ((remove_annotations tv).value ::
          t.filterMap (fun c =>
            match c with
            | MessageContent.text tv => some (remove_annotations tv).value
            | MessageContent.other => Option.none)) =
          (remove_annotations tv).value ++ String.join (t.filterMap (fun c =>
            match c with
            | MessageContent.text tv => some (remove_annotations tv).value
            | MessageContent.other => Option.none)) := by
        show List.foldl (fun r s => r ++ s) "" _ = _
        rw [List.foldl_cons, foldl_append_eq_join, String.empty_append]
      simp only [List.filterMap_cons]
      rw [hj, String.append_assoc]
    | other =>
      rw [List.foldl_cons]
      show t.foldl _ acc = _
      rw [ih]
      simp only [List.filterMap_cons]

/-- The outer message loop of `getfullresponse` appends, oldest first, the
text of every assistant message. -/
theorem message_foldl_eq_spec (ms : List Message) (acc : String) :
    ms.foldl
      (fun res m =>
        if m.role == "assistant" then
          m.content.foldl
            (fun a c =>
              match c with
              | MessageContent.text tv => a ++ (remove_annotations tv).value
              | MessageContent.other => a)
            res
        else res)
      acc =
    acc ++ spec_full_response ms := by
  induction ms generalizing acc with
  | nil => simp [spec_full_response, String.join, String.append_empty]
  | cons m t ih =>
    rw [List.foldl_cons]
    by_cases hr : (m.role == "assistant") = true
    · simp only [hr, if_true]
      rw [content_foldl_eq_join, ih]
      have hspec : spec_full_response (m :: t) =
          String.join (m.content.filterMap
            (fun c =>
              match c with
              | MessageContent.text tv => some (remove_annotations tv).value
              | MessageContent.other => Option.none)) ++ spec_full_response t := by
        unfold spec_full_response
        simp only [List.filter_cons]
        rw [if_pos hr, List.map_cons]
        show List.foldl (fun r s => r ++ s) "" _ = _
        rw [List.foldl_cons, foldl_append_eq_join, String.empty_append]
      rw [hspec, String.append_assoc]
    · rw [if_neg hr, ih]
      have hspec : spec_full_response (m :: t) = spec_full_response t := by
        unfold spec_full_response
        simp only [List.filter_cons]
        rw [if_neg hr]
      rw [hspec]

/-- `getfullresponse` over the API's newest-first message list computes the
spec's oldest-first concatenation of stripped assistant text segments. -/
theorem getfullresponse_eq_spec (data : List Message) :
    getfullresponse data = spec_full_response data.reverse := by
  unfold getfullresponse
  rw [message_foldl_eq_spec, String.empty_append]

/-- C6: at a terminal snapshot, a completed run returns status 200 with the
oldest-first concatenation of the thread's assistant-authored text segments,
annotations stripped; every other terminal status returns a single failed
result with status 500 carrying the remote-reported error detail. -/
theorem terminal_run_result_shape (tools : ToolsModule) (extra_args : Option Args)
    (thread_id : String) (messages : List Message) (run : RunSnapshot)
    (polls : List RunSnapshot) (hterm : isTerminal run.status = true) :
    (run.status = RunStatus.completed →
      (process_run tools extra_args thread_id messages run polls).1 =
        some { response := RespPayload.text (spec_full_response messages.reverse),
               status_code := 200, thread_id := some thread_id }) ∧
    (run.status ≠ RunStatus.completed →
      (process_run tools extra_args thread_id messages run polls).1 =
        some { response := RespPayload.errorDetail run.last_error,
               status_code := 500, thread_id := some thread_id }) := by
  rw [process_run_terminal_eq tools extra_args thread_id messages run polls hterm]
  constructor
  · intro hc
    rw [if_pos hc, ← getfullresponse_eq_spec]
  · intro hc
    rw [if_neg hc]

/-- C6 witness: a completed run over a thread holding one user message and one
annotated assistant message, and a failed run with an error detail. -/
theorem terminal_run_result_shape_witness :
    (isTerminal (RunStatus.completed) = true ∧
     (({ status := RunStatus.completed, tool_calls := [], last_error := Option.none } : RunSnapshot).status =
        RunStatus.completed →
      (process_run (fun _ => Option.none) Option.none "thread_9"
          [{ role := "assistant",
             content := [MessageContent.text { value := "Hello [1] world", annotations := [{ text := " [1]" }] }] },
           { role := "user", content := [MessageContent.text { value := "hi", annotations := [] }] }]
          { status := RunStatus.completed, tool_calls := [], last_error := Option.none } []).1 =
        some { response := RespPayload.text (spec_full_response
                 ([{ role := "assistant",
                     content := [MessageContent.text { value := "Hello [1] world", annotations := [{ text := " [1]" }] }] },
                   { role := "user", content := [MessageContent.text { value := "hi", annotations := [] }] }] : List Message).reverse),
               status_code := 200, thread_id := some "thread_9" })) ∧
    (isTerminal (RunStatus.failed) = true ∧
     (({ status := RunStatus.failed, tool_calls := [], last_error := some "rate_limit_exceeded" } : RunSnapshot).status ≠
        RunStatus.completed →
      (process_run (fun _ => Option.none) Option.none "thread_9" []
          { status := RunStatus.failed, tool_calls := [], last_error := some "rate_limit_exceeded" } []).1 =
        some { response := RespPayload.errorDetail (some "rate_limit_exceeded"),
               status_code := 500, thread_id := some "thread_9" })) :=
  ⟨⟨rfl,
    (terminal_run_result_shape (fun _ => Option.none) Option.none "thread_9"
      [{ role := "assistant",
         content := [MessageContent.text { value := "Hello [1] world", annotations := [{ text := " [1]" }] }] },
       { role := "user", content := [MessageContent.text { value := "hi", annotations := [] }] }]
      { status := RunStatus.completed, tool_calls := [], last_error := Option.none } [] rfl).1⟩,
   ⟨rfl,
    (terminal_run_result_shape (fun _ => Option.none) Option.none "thread_9" []
      { status := RunStatus.failed, tool_calls := [], last_error := some "rate_limit_exceeded" } [] rfl).2⟩⟩

/-- The file loop of `newthread_and_run` separates a batch exactly into the
vision files, in order, and the attachments of the non-vision files. -/
theorem sort_files_spec (fs : List file_upload) :
    (sort_files fs).1 = fs.filter (fun x => vision x) ∧
    (sort_files fs).2 = (fs.filter (fun x => !vision x)).map toAttachment ∧
    (sort_files fs).1.length + (sort_files fs).2.length = fs.length := by
  induction fs with
  | nil => exact ⟨rfl, rfl, rfl⟩
  | cons f rest ih =>
    rcases ih with ⟨ih1, ih2, ih3⟩
    cases hv : vision f with
    | true =>
      refine ⟨?_, ?_, ?_⟩
      · simp [sort_files, hv, List.filter_cons, ih1]
      · simp [sort_files, hv, List.filter_cons, ih2]
      · simp only [sort_files, hv, if_true, List.length_cons]
        omega
    | false =>
      refine ⟨?_, ?_, ?_⟩
      · simp [sort_files, hv, List.filter_cons, ih1]
      · simp [sort_files, hv, List.filter_cons, ih2]
      · simp only [sort_files, hv, Bool.false_eq_true, if_false, List.length_cons]
        omega

/-- C7: the mode of a file is a pure total function of its filename extension
(same extension, same mode); a file whose extension is in neither the image
list nor the retrieval list is classified code-execution-eligible and never
vision; and the message-building loop puts every file of a batch in exactly
one of the two collections — the vision messages or the tool attachments —
with the attachment tool determined by retrieval eligibility. -/
theorem attachment_classification_pure (fs : List file_upload) (f g : file_upload)
    (hext : extension f = extension g) :
    classify f = classify g ∧
    (vision f = false ∧ retrieval f = false →
      classify f = FileMode.code_interpreter ∧ classify f ≠ FileMode.vision) ∧
    (sort_files fs).1 = fs.filter (fun x => vision x) ∧
    (sort_files fs).2 = (fs.filter (fun x => !vision x)).map toAttachment ∧
    (sort_files fs).1.length + (sort_files fs).2.length = fs.length := by
  have hv : vision f = vision g := by unfold vision; rw [hext]
  have hr : retrieval f = retrieval g := by unfold retrieval; rw [hext]
  refine ⟨?_, ?_, (sort_files_spec fs).1, (sort_files_spec fs).2.1, (sort_files_spec fs).2.2⟩
  · unfold classify
    rw [hv, hr]
  · rintro ⟨hvf, hrf⟩
    constructor
    · simp [classify, hvf, hrf]
    · simp [classify, hvf, hrf]

/-- C7 witness: a vision file, a retrieval file and an unknown-extension file
("data.xyz", classified code-execution and not vision), with the purity
premise instantiated on two files sharing the extension "xyz". -/
theorem attachment_classification_pure_witness :
    (extension { file_id := some "f1", filename := "data.xyz" } =
      extension { file_id := some "f9", filename := "other.XYZ" }) ∧
    (classify { file_id := some "f1", filename := "data.xyz" } =
      classify { file_id := some "f9", filename := "other.XYZ" } ∧
     (vision { file_id := some "f1", filename := "data.xyz" } = false ∧
      retrieval { file_id := some "f1", filename := "data.xyz" } = false →
      classify { file_id := some "f1", filename := "data.xyz" } = FileMode.code_interpreter ∧
      classify { file_id := some "f1", filename := "data.xyz" } ≠ FileMode.vision) ∧
     (sort_files [{ file_id := some "f2", filename := "photo.JPG" },
                  { file_id := some "f3", filename := "notes.pdf" },
                  { file_id := some "f1", filename := "data.xyz" }]).1 =
       ([{ file_id := some "f2", filename := "photo.JPG" },
         { file_id := some "f3", filename := "notes.pdf" },
         { file_id := some "f1", filename := "data.xyz" }] : List file_upload).filter (fun x => vision x) ∧
     (sort_files [{ file_id := some "f2", filename := "photo.JPG" },
                  { file_id := some "f3", filename := "notes.pdf" },
                  { file_id := some "f1", filename := "data.xyz" }]).2 =
       (([{ file_id := some "f2", filename := "photo.JPG" },
          { file_id := some "f3", filename := "notes.pdf" },
          { file_id := some "f1", filename := "data.xyz" }] : List file_upload).filter (fun x => !vision x)).map toAttachment ∧
     (sort_files [{ file_id := some "f2", filename := "photo.JPG" },
                  { file_id := some "f3", filename := "notes.pdf" },
                  { file_id := some "f1", filename := "data.xyz" }]).1.length +
       (sort_files [{ file_id := some "f2", filename := "photo.JPG" },
                    { file_id := some "f3", filename := "notes.pdf" },
                    { file_id := some "f1", filename := "data.xyz" }]).2.length =
       ([{ file_id := some "f2", filename := "photo.JPG" },
         { file_id := some "f3", filename := "notes.pdf" },
         { file_id := some "f1", filename := "data.xyz" }] : List file_upload).length) :=
  ⟨by decide,
   attachment_classification_pure
     [{ file_id := some "f2", filename := "photo.JPG" },
      { file_id := some "f3", filename := "notes.pdf" },
      { file_id := some "f1", filename := "data.xyz" }]
     { file_id := some "f1", filename := "data.xyz" }
     { file_id := some "f9", filename := "other.XYZ" } (by decide)⟩

/-- C8 counterexample: `get_thread` with a thread id whose retrieval fails
does not surface a not-found result — it silently creates and returns a fresh
thread (with the assistant name stored in its metadata), whose id is not the
requested one. -/
theorem get_thread_notfound_counterexample :
    get_thread (fun _ => Option.none)
        (fun md => { id := "thread_new_123", metadata := md })
        (some "thread_missing") (some "Demo") (some []) =
      { id := "thread_new_123", metadata := [("assistant_name", "Demo")] } ∧
    (get_thread (fun _ => Option.none)
        (fun md => { id := "thread_new_123", metadata := md })
        (some "thread_missing") (some "Demo") (some [])).id ≠ "thread_missing" :=
  ⟨rfl, by decide⟩

/-- C8 (amended): `newthread_and_run` with an assistant name matching no
assistant returns the 404 not-found result; `get_thread` with a thread id that
cannot be retrieved does not surface not-found — it falls back to creating and
returning a new thread carrying the supplied metadata. -/
theorem assistant_notfound_404_thread_fallback
    (lookup_by_name : String → Option String) (assistant_name : String)
    (retrieve : String → Option ThreadObj)
    (create : List (String × String) → ThreadObj)
    (tid : String) (an : Option String) (md : Option (List (String × String)))
    (hmiss : lookup_by_name assistant_name = Option.none)
    (hfail : retrieve tid = Option.none) :
    resolve_assistant lookup_by_name Option.none assistant_name =
      Except.error
        { response := RespPayload.text
            ("Assistant \x27" ++ assistant_name ++ "\x27 not found"),
          status_code := 404, thread_id := Option.none } ∧
    get_thread retrieve create (some tid) an md =
      create (md_with_assistant_name (md.getD []) an) := by
  constructor
  · simp [resolve_assistant, hmiss]
  · simp [get_thread, hfail]

/-- C8 witness: a concrete empty assistant registry and a concrete failing
thread retrieval. -/
theorem assistant_notfound_404_thread_fallback_witness :
    ((fun _ => Option.none : String → Option String) "Ghost Assistant" = Option.none ∧
     (fun _ => Option.none : String → Option ThreadObj) "thread_gone" = Option.none) ∧
    (resolve_assistant (fun _ => Option.none) Option.none "Ghost Assistant" =
      Except.error
        { response := RespPayload.text
            ("Assistant \x27" ++ "Ghost Assistant" ++ "\x27 not found"),
          status_code := 404, thread_id := Option.none } ∧
     get_thread (fun _ => Option.none)
        (fun md => { id := "thread_fresh", metadata := md })
        (some "thread_gone") (some "Ghost Assistant") Option.none =
      (fun md => ({ id := "thread_fresh", metadata := md } : ThreadObj))
        (md_with_assistant_name ((Option.none : Option (List (String × String))).getD [])
          (some "Ghost Assistant"))) :=
  ⟨⟨rfl, rfl⟩,
   assistant_notfound_404_thread_fallback (fun _ => Option.none) "Ghost Assistant"
     (fun _ => Option.none) (fun md => { id := "thread_fresh", metadata := md })
     "thread_gone" (some "Ghost Assistant") Option.none rfl rfl⟩

/-- C9 counterexample: `google_search` with a valid payload whose remote call
raises returns `None` — not a string — because of the bare
`except: return None`. -/
theorem google_search_returns_none_counterexample :
    google_search Option.none
        (fun _ => Except.error "HttpError 403: quota exceeded")
        (Except.ok { query := "openai assistants", results := 5,
                     exactTerms := Option.none, excludeTerms := Option.none,
                     cx := some "cse123" }) = Except.ok PyVal.none ∧
    isStrResult
      (google_search Option.none
        (fun _ => Except.error "HttpError 403: quota exceeded")
        (Except.ok { query := "openai assistants", results := 5,
                     exactTerms := Option.none, excludeTerms := Option.none,
                     cx := some "cse123" })) = false :=
  ⟨rfl, rfl⟩

/-- C9 (amended): `webscrape` returns a string for every payload, including
validation and fetch failures; `google_search` returns a string when the
payload validates and the remote call succeeds, but returns `None` when the
remote call raises and propagates a validation error; `company_research`
returns a string for every validating payload and propagates a validation
error. -/
theorem tool_function_return_shapes
    (fetch : String → Except String String) (h2t : String → Bool → String)
    (plain_w : Except String WebScrapeParameters)
    (env_cx : Option String)
    (remote : google_search_parameters → Except String (Option String))
    (info_err info_ok : google_search_parameters) (err items : String)
    (run_assistant : String → ApiResponse)
    (info_c : company_research_parameters) (e : String)
    (hrem_err : remote (apply_default_cx env_cx info_err) = Except.error err)
    (hrem_ok : remote (apply_default_cx env_cx info_ok) = Except.ok (some items)) :
    isStrResult (webscrape fetch h2t plain_w) = true ∧
    google_search env_cx remote (Except.error e) = Except.error e ∧
    google_search env_cx remote (Except.ok info_err) = Except.ok PyVal.none ∧
    google_search env_cx remote (Except.ok info_ok) = Except.ok (PyVal.str items) ∧
    company_research run_assistant (Except.error e) = Except.error e ∧
    isStrResult (company_research run_assistant (Except.ok info_c)) = true := by
  refine ⟨?_, rfl, ?_, ?_, rfl, rfl⟩
  · cases plain_w with
    | error pe => rfl
    | ok info =>
      cases hf : fetch info.url with
      | error fe => simp [webscrape, hf, isStrResult]
      | ok htmlText => simp [webscrape, hf, isStrResult]
  · simp [google_search, hrem_err]
  · simp [google_search, hrem_ok]

/-- C9 witness: concrete fetch, converter and payloads; the failing remote and
the succeeding remote are distinguished by the query. -/
theorem tool_function_return_shapes_witness :
    ((fun p : google_search_parameters =>
        if p.query = "bad" then (Except.error "HttpError 403" : Except String (Option String))
        else Except.ok (some "[items]"))
       (apply_default_cx (some "env_cx")
         { query := "bad", results := 5, exactTerms := Option.none,
           excludeTerms := Option.none, cx := Option.none }) = Except.error "HttpError 403" ∧
     (fun p : google_search_parameters =>
        if p.query = "bad" then (Except.error "HttpError 403" : Except String (Option String))
        else Except.ok (some "[items]"))
       (apply_default_cx (some "env_cx")
         { query := "good", results := 5, exactTerms := Option.none,
           excludeTerms := Option.none, cx := Option.none }) = Except.ok (some "[items]")) ∧
    (isStrResult (webscrape (fun _ => Except.ok "<p>hi</p>") (fun h _ => h)
        (Except.ok { url := "https://example.com/", ignore_links := false,
                     max_length := some 4 })) = true ∧
     google_search (some "env_cx")
        (fun p =>
          if p.query = "bad" then (Except.error "HttpError 403" : Except String (Option String))
          else Except.ok (some "[items]"))
        (Except.error "validation error: url") = Except.error "validation error: url" ∧
     google_search (some "env_cx")
        (fun p =>
          if p.query = "bad" then (Except.error "HttpError 403" : Except String (Option String))
          else Except.ok (some "[items]"))
        (Except.ok { query := "bad", results := 5, exactTerms := Option.none,
                     excludeTerms := Option.none, cx := Option.none }) = Except.ok PyVal.none ∧
     google_search (some "env_cx")
        (fun p =>
          if p.query = "bad" then (Except.error "HttpError 403" : Except String (Option String))
          else Except.ok (some "[items]"))
        (Except.ok { query := "good", results := 5, exactTerms := Option.none,
                     excludeTerms := Option.none, cx := Option.none }) = Except.ok (PyVal.str "[items]") ∧
     company_research
        (fun _ => { response := RespPayload.text "report", status_code := 200,
                    thread_id := some "t1" })
        (Except.error "validation error: url") = Except.error "validation error: url" ∧
     isStrResult (company_research
        (fun _ => { response := RespPayload.text "report", status_code := 200,
                    thread_id := some "t1" })
        (Except.ok { company_name := "Acme", website := "https://acme.com/" })) = true) :=
  ⟨⟨rfl, rfl⟩,
   tool_function_return_shapes
     (fun _ => Except.ok "<p>hi</p>") (fun h _ => h)
     (Except.ok { url := "https://example.com/", ignore_links := false, max_length := some 4 })
     (some "env_cx")
     (fun p =>
       if p.query = "bad" then (Except.error "HttpError 403" : Except String (Option String))
       else Except.ok (some "[items]"))
     { query := "bad", results := 5, exactTerms := Option.none,
       excludeTerms := Option.none, cx := Option.none }
     { query := "good", results := 5, exactTerms := Option.none,
       excludeTerms := Option.none, cx := Option.none }
     "HttpError 403" "[items]"
     (fun _ => { response := RespPayload.text "report", status_code := 200,
                 thread_id := some "t1" })
     { company_name := "Acme", website := "https://acme.com/" }
     "validation error: url"
     rfl rfl⟩

/-- C10: constructing the assistant client is idempotent — with the class
already cached by a first `Assistant_call()` call, a second call returns the
very instance produced by the first, whatever constructor the second call
would have run, and leaves the cache unchanged. -/
theorem assistant_call_singleton (instances : List (String × AssistantCallObj))
    (cls : String) (make1 make2 : Unit → AssistantCallObj) :
    (singleton_call (singleton_call instances cls make1).2 cls make2).1 =
      (singleton_call instances cls make1).1 ∧
    (singleton_call (singleton_call instances cls make1).2 cls make2).2 =
      (singleton_call instances cls make1).2 := by
  cases hl : instances.lookup cls with
  | some inst => simp [singleton_call, hl]
  | none => simp [singleton_call, hl]

end FastapiAssistant
